import Mathlib

/-!
Verification of the cross-thread frame handoff protocol of bevy_mod_adwaita.

The definitions below are a shallow embedding of src/lib.rs and src/render.rs:
pure data is translated to Lean structures, the per-window bodies of the
relevant ECS systems become explicit state-passing functions, Rust u32
arithmetic is Nat with an explicit mod 2^32, and i32 atomics are Int.
-/

namespace BevyModAdwaita

/-- Rust u32 multiplication (release semantics: wraps at 2^32). -/
def u32_mul (a b : Nat) : Nat := a * b % 2 ^ 32

/-- Rust u32 try_from on an i32 value: succeeds exactly when the value is
non-negative (every non-negative i32 fits in a u32). -/
def u32_try_from (x : Int) : Option Nat :=
  if 0 ≤ x then some x.toNat else none

/-- DmabufInfo from src/render.rs: the size of the exported image and the
file descriptor of its exported memory. -/
structure DmabufInfo where
  size : Nat × Nat
  fd : Int
deriving DecidableEq, Repr

/-- FrameInfo from src/render.rs: a frame descriptor, holding the dmabuf
description and a shared reference to the texture view (modelled as an
opaque identifier) that keeps the GPU resources alive while in flight. -/
structure FrameInfo where
  dmabuf : DmabufInfo
  texture_view : Nat
deriving DecidableEq, Repr

namespace AtomicOptionBox

/-- AtomicOptionBox.store with a Some payload, as used throughout
src/lib.rs: unconditionally overwrites the current content of the slot,
dropping any previously stored, undrained value. -/
def store (slot : Option FrameInfo) (v : FrameInfo) : Option FrameInfo :=
  let _ := slot
  some v

/-- AtomicOptionBox.take: atomically removes and returns the current
content, leaving the slot empty. Returns (observed value, new slot state). -/
def take (slot : Option FrameInfo) : Option FrameInfo × Option FrameInfo :=
  (slot, none)

/-- A sequence of store calls on a slot with no intervening take. -/
def run_stores (slot : Option FrameInfo) (vs : List FrameInfo) : Option FrameInfo :=
  vs.foldl store slot

theorem run_stores_eq_getLast (slot : Option FrameInfo) (vs : List FrameInfo)
    (h : vs ≠ []) : run_stores slot vs = some (vs.getLast h) := by
  induction vs generalizing slot with
  | nil => exact absurd rfl h
  | cons v rest ih =>
    cases rest with
    | nil => rfl
    | cons w ws =>
      rw [List.getLast_cons (by simp)]
      exact ih (some v) (by simp)

end AtomicOptionBox

/-- C2: for every sequence of store operations on a Frame Slot with no
intervening take, the next take returns exactly the most recently stored
frame descriptor and leaves the slot empty; the observed value does not
depend on any earlier store or on the initial slot content (so every
earlier undrained descriptor has been replaced and is not observable by
any later take). -/
theorem frame_slot_last_store_wins (slot : Option FrameInfo)
    (vs : List FrameInfo) (h : vs ≠ []) :
    (AtomicOptionBox.take (AtomicOptionBox.run_stores slot vs)).1 =
      some (vs.getLast h) ∧
    (AtomicOptionBox.take (AtomicOptionBox.run_stores slot vs)).2 = none ∧
    (∀ slot2 : Option FrameInfo,
      AtomicOptionBox.run_stores slot2 vs = AtomicOptionBox.run_stores slot vs) := by
  refine ⟨?_, rfl, ?_⟩
  · rw [AtomicOptionBox.run_stores_eq_getLast slot vs h]
    rfl
  · intro slot2
    rw [AtomicOptionBox.run_stores_eq_getLast slot2 vs h,
      AtomicOptionBox.run_stores_eq_getLast slot vs h]

/-- Witness for frame_slot_last_store_wins at a concrete two-store run. -/
theorem frame_slot_last_store_wins_witness :
    (AtomicOptionBox.take (AtomicOptionBox.run_stores none
        [⟨⟨(1, 1), 3⟩, 0⟩, ⟨⟨(2, 2), 4⟩, 1⟩])).1 =
      some (List.getLast [⟨⟨(1, 1), 3⟩, 0⟩, ⟨⟨(2, 2), 4⟩, 1⟩] (by simp)) :=
  (frame_slot_last_store_wins none [⟨⟨(1, 1), 3⟩, 0⟩, ⟨⟨(2, 2), 4⟩, 1⟩] (by simp)).1

/-- The ManualTextureViews resource, modelled as an association list from
ManualTextureViewHandle (a Nat identifier) to the registered view, the view
itself modelled by its pixel size. Lookup takes the first matching key. -/
abbrev ManualTextureViews := List (Nat × (Nat × Nat))

namespace ManualTextureViews

/-- contains_key on the ManualTextureViews map. -/
def contains_key (views : ManualTextureViews) (handle : Nat) : Bool :=
  views.any fun kv => kv.1 == handle

/-- insert on the ManualTextureViews map (new binding shadows any old one). -/
def insert (views : ManualTextureViews) (handle : Nat) (view : Nat × Nat) :
    ManualTextureViews :=
  (handle, view) :: views

theorem contains_key_insert (views : ManualTextureViews) (handle : Nat)
    (view : Nat × Nat) : contains_key (insert views handle view) handle = true := by
  simp [contains_key, insert]

end ManualTextureViews

/-- The AdwaitaWindow component from src/lib.rs, together with the contents
of the shared cells it holds Arc references to. The i32 atomics
render_target_width, render_target_height and scale_factor are Int; the
two AtomicOptionBox slots are Option FrameInfo; send_command is omitted
(fire-and-forget UI hints, out of scope of the claims). -/
structure AdwaitaWindow where
  render_target_width : Int
  render_target_height : Int
  scale_factor : Int
  shared_next_frame : Option FrameInfo
  closed : Bool
  render_target_handle : Nat
  last_render_target_size : Nat × Nat
  next_frame_to_render : Option FrameInfo
deriving DecidableEq, Repr

/-- The pixel size computed by poll_windows (src/lib.rs lines 323-336) from
one report of the three atomics: each dimension must pass u32 try_from
(be non-negative), then each reported dimension is clamped to at least 1
and multiplied by the scale factor in u32 arithmetic. Returns none when
any atomic is negative (the not-yet-ready sentinel). -/
def computed_size (r : Int × Int × Int) : Option (Nat × Nat) :=
  match u32_try_from r.1, u32_try_from r.2.1, u32_try_from r.2.2 with
  | some width, some height, some scale =>
      some (u32_mul (max width 1) scale, u32_mul (max height 1) scale)
  | _, _, _ => none

/-- Result of one iteration of the poll_windows loop body for one window:
the window component afterwards (none when the entity was despawned), the
ManualTextureViews resource afterwards, and the size passed to
setup_render_target when an export was performed. -/
structure PollOutcome where
  window : Option AdwaitaWindow
  views : ManualTextureViews
  export_request : Option (Nat × Nat)
deriving DecidableEq, Repr

/-- The body of the poll_windows system (src/lib.rs lines 316-361) for one
window. fd is the file descriptor returned by setup_render_target for this
export and tv the identifier of the texture view it creates (both chosen
by the GPU driver, passed here as parameters). A closed window is
despawned; a window whose atomics are not all non-negative is skipped; a
report resolving to the already-applied pixel size is skipped; otherwise
the render target is re-exported: the view is registered under the fixed
render_target_handle of the window, last_render_target_size is updated and
the new frame descriptor is stored into the next_frame_to_render slot. -/
def poll_window (fd : Int) (tv : Nat) (views : ManualTextureViews)
    (w : AdwaitaWindow) : PollOutcome :=
  if w.closed then
    { window := none, views := views, export_request := none }
  else
    match computed_size (w.render_target_width, w.render_target_height,
        w.scale_factor) with
    | some size =>
      if size = w.last_render_target_size then
        { window := some w, views := views, export_request := none }
      else
        let next_frame_info : FrameInfo :=
          { dmabuf := { size := size, fd := fd }, texture_view := tv }
        { window := some { w with
            last_render_target_size := size,
            next_frame_to_render :=
              AtomicOptionBox.store w.next_frame_to_render next_frame_info },
          views := ManualTextureViews.insert views w.render_target_handle size,
          export_request := some size }
    | none => { window := some w, views := views, export_request := none }

theorem poll_window_of_computed (fd : Int) (tv : Nat)
    (views : ManualTextureViews) (w : AdwaitaWindow) (size : Nat × Nat)
    (hc : w.closed = false)
    (hcs : computed_size (w.render_target_width, w.render_target_height,
        w.scale_factor) = some size) :
    poll_window fd tv views w =
      if size = w.last_render_target_size then
        { window := some w, views := views, export_request := none }
      else
        { window := some { w with
            last_render_target_size := size,
            next_frame_to_render := AtomicOptionBox.store w.next_frame_to_render
              { dmabuf := { size := size, fd := fd }, texture_view := tv } },
          views := ManualTextureViews.insert views w.render_target_handle size,
          export_request := some size } := by
  simp only [poll_window, hc, Bool.false_eq_true, if_false, hcs]

theorem poll_window_of_not_ready (fd : Int) (tv : Nat)
    (views : ManualTextureViews) (w : AdwaitaWindow)
    (hc : w.closed = false)
    (hcs : computed_size (w.render_target_width, w.render_target_height,
        w.scale_factor) = none) :
    poll_window fd tv views w =
      { window := some w, views := views, export_request := none } := by
  simp only [poll_window, hc, Bool.false_eq_true, if_false, hcs]

theorem u32_try_from_of_nonneg {x : Int} (h : 0 ≤ x) :
    u32_try_from x = some x.toNat := by
  simp [u32_try_from, h]

theorem u32_try_from_of_neg {x : Int} (h : x < 0) : u32_try_from x = none := by
  simp [u32_try_from, not_le.mpr h]

theorem computed_size_of_nonneg {a b c : Int} {width height scale : Nat}
    (hw : u32_try_from a = some width) (hh : u32_try_from b = some height)
    (hs : u32_try_from c = some scale) :
    computed_size (a, b, c) =
      some (u32_mul (max width 1) scale, u32_mul (max height 1) scale) := by
  simp [computed_size, hw, hh, hs]

theorem computed_size_of_neg {a b c : Int}
    (h : a < 0 ∨ b < 0 ∨ c < 0) : computed_size (a, b, c) = none := by
  rcases h with h | h | h
  · cases hb : u32_try_from b <;> cases hc : u32_try_from c <;>
      simp [computed_size, u32_try_from_of_neg h, hb, hc]
  · cases ha : u32_try_from a <;> cases hc : u32_try_from c <;>
      simp [computed_size, u32_try_from_of_neg h, ha, hc]
  · cases ha : u32_try_from a <;> cases hb : u32_try_from b <;>
      simp [computed_size, u32_try_from_of_neg h, ha, hb]

/-- C5: for every poll in which the reported width, height and scale_factor
atomics are all non-negative (and the products fit in a u32), the pixel
size passed to the Render Target Exporter equals
(max(width,1) * scale_factor, max(height,1) * scale_factor): each reported
dimension is clamped to at least 1 before multiplying by the scale factor. -/
theorem export_size_formula (fd : Int) (tv : Nat) (views : ManualTextureViews)
    (w : AdwaitaWindow) (width height scale : Nat)
    (hc : w.closed = false)
    (hw : u32_try_from w.render_target_width = some width)
    (hh : u32_try_from w.render_target_height = some height)
    (hs : u32_try_from w.scale_factor = some scale)
    (hfit1 : max width 1 * scale < 2 ^ 32)
    (hfit2 : max height 1 * scale < 2 ^ 32) :
    ∀ size, (poll_window fd tv views w).export_request = some size →
      size = (max width 1 * scale, max height 1 * scale) := by
  intro size hsize
  rw [poll_window_of_computed fd tv views w _ hc
    (computed_size_of_nonneg hw hh hs)] at hsize
  split at hsize
  · exact absurd hsize (by simp)
  · simp only [PollOutcome.mk.injEq, Option.some.injEq] at hsize
    rw [← hsize]
    simp only [u32_mul, Prod.mk.injEq]
    exact ⟨Nat.mod_eq_of_lt hfit1, Nat.mod_eq_of_lt hfit2⟩

/-- A concrete window: 640 x 480 reported at scale 1, not yet applied. -/
def w640 : AdwaitaWindow :=
  { render_target_width := 640
    render_target_height := 480
    scale_factor := 1
    shared_next_frame := none
    closed := false
    render_target_handle := 17
    last_render_target_size := (0, 0)
    next_frame_to_render := none }

/-- Witness for export_size_formula at the concrete window w640. -/
theorem export_size_formula_witness :
    ((640 : Nat), (480 : Nat)) = (max 640 1 * 1, max 480 1 * 1) :=
  export_size_formula 3 0 [] w640 640 480 1 rfl (by decide) (by decide)
    (by decide) (by decide) (by decide) (640, 480) (by decide)

/-- C6: for every window and every poll in which any of the three atomics
(width, height, scale_factor) holds a negative value, the poll skips that
window silently: no export is attempted and the window, the registered
texture views and the relay slots are all left unchanged by that poll. -/
theorem negative_report_skips_window (fd : Int) (tv : Nat)
    (views : ManualTextureViews) (w : AdwaitaWindow)
    (hc : w.closed = false)
    (hneg : w.render_target_width < 0 ∨ w.render_target_height < 0 ∨
      w.scale_factor < 0) :
    poll_window fd tv views w =
      { window := some w, views := views, export_request := none } :=
  poll_window_of_not_ready fd tv views w hc (computed_size_of_neg hneg)

/-- A concrete window still holding the -1 sentinel in scale_factor. -/
def w_sentinel : AdwaitaWindow :=
  { render_target_width := 640
    render_target_height := 480
    scale_factor := -1
    shared_next_frame := none
    closed := false
    render_target_handle := 17
    last_render_target_size := (7, 7)
    next_frame_to_render := none }

/-- Witness for negative_report_skips_window at the sentinel window. -/
theorem negative_report_skips_window_witness :
    poll_window 3 0 [] w_sentinel =
      { window := some w_sentinel, views := [], export_request := none } :=
  negative_report_skips_window 3 0 [] w_sentinel rfl (by decide)

/-- Modelled from the spec: the documented size precondition of the Render
Target Exporter (setup_render_target) — a requested size must be at least
1 x 1 in each dimension; callers must clamp zero-sized requests before
calling. The source function itself carries no runtime check for it. -/
def setup_render_target_size_precondition (size : Nat × Nat) : Prop :=
  1 ≤ size.1 ∧ 1 ≤ size.2

/-- C9: a reported scale_factor of 0 passes the non-negative readiness
check (u32 try_from of 0 succeeds), and since the clamp to 1 is applied to
the reported dimensions before scaling rather than to the computed result,
any window whose last_render_target_size is not (0,0) then invokes the
Render Target Exporter with the zero-sized request (0,0), violating the
documented at-least-1x1 precondition of the exporter. -/
theorem zero_scale_exports_zero_size (fd : Int) (tv : Nat)
    (views : ManualTextureViews) (w : AdwaitaWindow)
    (hc : w.closed = false)
    (hw : 0 ≤ w.render_target_width) (hh : 0 ≤ w.render_target_height)
    (hs : w.scale_factor = 0)
    (hlast : w.last_render_target_size ≠ (0, 0)) :
    u32_try_from w.scale_factor = some 0 ∧
    (∀ width : Nat, u32_mul (max width 1) 0 = 0) ∧
    (poll_window fd tv views w).export_request = some (0, 0) ∧
    ¬ setup_render_target_size_precondition (0, 0) := by
  have hsz : u32_try_from w.scale_factor = some 0 := by
    rw [hs]; rfl
  refine ⟨hsz, fun width => by simp [u32_mul], ?_,
    by simp [setup_render_target_size_precondition]⟩
  have hcs : computed_size (w.render_target_width, w.render_target_height,
      w.scale_factor) = some (0, 0) := by
    rw [computed_size_of_nonneg (u32_try_from_of_nonneg hw)
      (u32_try_from_of_nonneg hh) hsz]
    simp [u32_mul]
  rw [poll_window_of_computed fd tv views w _ hc hcs,
    if_neg (fun hsome => hlast hsome.symm)]

/-- A concrete window reporting scale factor 0 after a valid first size. -/
def w_zero_scale : AdwaitaWindow :=
  { render_target_width := 640
    render_target_height := 480
    scale_factor := 0
    shared_next_frame := none
    closed := false
    render_target_handle := 17
    last_render_target_size := (640, 480)
    next_frame_to_render := none }

/-- Witness for zero_scale_exports_zero_size at the concrete window. -/
theorem zero_scale_exports_zero_size_witness :
    (poll_window 3 0 [] w_zero_scale).export_request = some (0, 0) :=
  (zero_scale_exports_zero_size 3 0 [] w_zero_scale rfl (by decide) (by decide)
    rfl (by decide)).2.2.1

/-- C10: when poll_windows observes closed = true for a window, it despawns
the window entity but does not touch the ManualTextureViews resource:
every handle previously registered by an export is still registered after
the despawning poll. -/
theorem closed_window_keeps_texture_views (fd : Int) (tv : Nat)
    (views : ManualTextureViews) (w : AdwaitaWindow)
    (hc : w.closed = true) :
    (poll_window fd tv views w).window = none ∧
    (poll_window fd tv views w).views = views ∧
    ∀ handle, ManualTextureViews.contains_key views handle = true →
      ManualTextureViews.contains_key (poll_window fd tv views w).views
        handle = true := by
  simp [poll_window, hc]

/-- A concrete closed window whose render target is registered. -/
def w_closed : AdwaitaWindow :=
  { render_target_width := 640
    render_target_height := 480
    scale_factor := 1
    shared_next_frame := none
    closed := true
    render_target_handle := 17
    last_render_target_size := (640, 480)
    next_frame_to_render := none }

/-- Witness for closed_window_keeps_texture_views: the registered view of
the closed window survives the despawning poll. -/
theorem closed_window_keeps_texture_views_witness :
    ManualTextureViews.contains_key
      (poll_window 3 0 [(17, (640, 480))] w_closed).views 17 = true :=
  (closed_window_keeps_texture_views 3 0 [(17, (640, 480))] w_closed rfl).2.2
    17 (by decide)

/-- One size/scale report from the UI thread: the UI writes the three
atomics (render_target_width, render_target_height, scale_factor). -/
def set_report (w : AdwaitaWindow) (r : Int × Int × Int) : AdwaitaWindow :=
  { w with
    render_target_width := r.1
    render_target_height := r.2.1
    scale_factor := r.2.2 }

theorem set_report_atomics (w : AdwaitaWindow) (r : Int × Int × Int) :
    ((set_report w r).render_target_width,
      (set_report w r).render_target_height,
      (set_report w r).scale_factor) = r := rfl

/-- A run of the render loop against one window: before each poll the UI
thread publishes one report, then the poll_windows body runs. fds i and
tvs i are the descriptor and view produced by the export of step i, when
one happens. Returns the final window, the final views and the number of
exports performed. -/
def poll_seq (fds : Nat → Int) (tvs : Nat → Nat) :
    Nat → ManualTextureViews → AdwaitaWindow → List (Int × Int × Int) →
    AdwaitaWindow × ManualTextureViews × Nat
  | _, views, w, [] => (w, views, 0)
  | i, views, w, r :: rs =>
    let w1 := set_report w r
    let out := poll_window (fds i) (tvs i) views w1
    match out.window with
    | some w2 =>
      let rest := poll_seq fds tvs (i + 1) out.views w2 rs
      (rest.1, rest.2.1,
        (if out.export_request.isSome then 1 else 0) + rest.2.2)
    | none => (w1, out.views, 0)

theorem poll_seq_count_zero (fds : Nat → Int) (tvs : Nat → Nat)
    (s : Nat × Nat) (rs : List (Int × Int × Int)) :
    ∀ (i : Nat) (views : ManualTextureViews) (w : AdwaitaWindow),
    w.closed = false → w.last_render_target_size = s →
    (∀ r ∈ rs, computed_size r = some s) →
    (poll_seq fds tvs i views w rs).2.2 = 0 := by
  induction rs with
  | nil => intro i views w _ _ _; rfl
  | cons r rs ih =>
    intro i views w hc hlast hall
    have hcs : computed_size ((set_report w r).render_target_width,
        (set_report w r).render_target_height,
        (set_report w r).scale_factor) = some s := by
      rw [set_report_atomics]; exact hall r (by simp)
    have hstep := poll_window_of_computed (fds i) (tvs i) views
      (set_report w r) s (by simpa [set_report] using hc) hcs
    rw [if_pos (by simpa [set_report] using hlast.symm)] at hstep
    simp only [poll_seq, hstep, Option.isSome_none, Bool.false_eq_true,
      if_false, Nat.zero_add]
    exact ih (i + 1) views (set_report w r)
      (by simpa [set_report] using hc) (by simpa [set_report] using hlast)
      (fun q hq => hall q (by simp [hq]))

/-- C3: for every window and every poll in which the three reported atomics
are all non-negative, an export happens if and only if the computed pixel
size differs from last_render_target_size of the window; consequently, for
any run whose reports all resolve to the same computed pixel size, at most
one export occurs. -/
theorem export_iff_size_changed :
    (∀ (fd : Int) (tv : Nat) (views : ManualTextureViews)
      (w : AdwaitaWindow) (size : Nat × Nat),
      w.closed = false →
      computed_size (w.render_target_width, w.render_target_height,
        w.scale_factor) = some size →
      ((poll_window fd tv views w).export_request.isSome = true ↔
        size ≠ w.last_render_target_size)) ∧
    (∀ (fds : Nat → Int) (tvs : Nat → Nat) (views : ManualTextureViews)
      (w : AdwaitaWindow) (s : Nat × Nat) (rs : List (Int × Int × Int)),
      w.closed = false →
      (∀ r ∈ rs, computed_size r = some s) →
      (poll_seq fds tvs 0 views w rs).2.2 ≤ 1) := by
  constructor
  · intro fd tv views w size hc hcs
    rw [poll_window_of_computed fd tv views w size hc hcs]
    by_cases hlast : size = w.last_render_target_size
    · simp [hlast]
    · simp [hlast]
  · intro fds tvs views w s rs hc hall
    cases rs with
    | nil => exact Nat.zero_le 1
    | cons r rs =>
      by_cases hlast : w.last_render_target_size = s
      · rw [poll_seq_count_zero fds tvs s (r :: rs) 0 views w hc hlast hall]
        exact Nat.zero_le 1
      · have hcs : computed_size ((set_report w r).render_target_width,
            (set_report w r).render_target_height,
            (set_report w r).scale_factor) = some s := by
          rw [set_report_atomics]; exact hall r (by simp)
        have hstep := poll_window_of_computed (fds 0) (tvs 0) views
          (set_report w r) s (by simpa [set_report] using hc) hcs
        rw [if_neg (by simp [set_report]; exact fun h => hlast h.symm)]
          at hstep
        simp only [poll_seq, hstep, Option.isSome_some, if_true]
        have hrest := poll_seq_count_zero fds tvs s rs 1
          (ManualTextureViews.insert views
            (set_report w r).render_target_handle s)
          { set_report w r with
            last_render_target_size := s,
            next_frame_to_render :=
              AtomicOptionBox.store (set_report w r).next_frame_to_render
                { dmabuf := { size := s, fd := fds 0 }, texture_view := tvs 0 } }
          (by simpa [set_report] using hc) rfl
          (fun q hq => hall q (by simp [hq]))
        rw [hrest]

/-- Witness for export_iff_size_changed: a fresh 640 x 480 window polled
with two identical reports exports at most once, and the single-poll iff
holds at the same window. -/
theorem export_iff_size_changed_witness :
    ((poll_window 3 0 [] w640).export_request.isSome = true ↔
      ((640 : Nat), (480 : Nat)) ≠ w640.last_render_target_size) ∧
    (poll_seq (fun _ => 3) (fun _ => 0) 0 [] w640
      [(640, 480, 1), (640, 480, 1)]).2.2 ≤ 1 :=
  ⟨export_iff_size_changed.1 3 0 [] w640 (640, 480) rfl (by decide),
   export_iff_size_changed.2 (fun _ => 3) (fun _ => 0) [] w640 (640, 480)
     [(640, 480, 1), (640, 480, 1)] rfl (by decide)⟩

/-- The per-window relay state across one render pass: the contents of the
two shared AtomicOptionBox cells that the RenderWindow component of
src/lib.rs holds Arc references to (next_frame_to_render is slot A,
shared_next_frame is slot B), together with next_frame_to_send, the
descriptor carried by the RenderWindow entity spawned during extraction
(none when no RenderWindow was spawned or the carried frame was consumed). -/
structure RenderWindow where
  shared_next_frame : Option FrameInfo
  next_frame_to_render : Option FrameInfo
  next_frame_to_send : Option FrameInfo
deriving DecidableEq, Repr

/-- The body of extract_windows (src/lib.rs lines 371-385) for one window:
take from slot A; when it holds a descriptor, spawn a RenderWindow carrying
it in next_frame_to_send; when slot A is empty, spawn nothing. -/
def extract_windows (s : RenderWindow) : RenderWindow :=
  match AtomicOptionBox.take s.next_frame_to_render with
  | (some f, slotA) =>
    { s with next_frame_to_render := slotA, next_frame_to_send := some f }
  | (none, _) => s

/-- The body of send_frame_to_windows (src/lib.rs lines 387-399) for one
window: take the carried descriptor and store it into slot B; when nothing
is carried, do nothing. -/
def send_frame_to_windows (s : RenderWindow) : RenderWindow :=
  match s.next_frame_to_send with
  | some f =>
    { s with
      next_frame_to_send := none,
      shared_next_frame := AtomicOptionBox.store s.shared_next_frame f }
  | none => s

/-- The body of put_back_next_frame_if_not_sent (src/lib.rs lines 401-409)
for one window: if a carried descriptor is still present at the Last
schedule, store it back into slot A; otherwise do nothing. -/
def put_back_next_frame_if_not_sent (s : RenderWindow) : RenderWindow :=
  match s.next_frame_to_send with
  | some f =>
    { s with
      next_frame_to_send := none,
      next_frame_to_render := AtomicOptionBox.store s.next_frame_to_render f }
  | none => s

/-- The main-world poll storing a freshly exported descriptor into slot A
(src/lib.rs lines 358-360), as it may happen concurrently with a render
pass that already carried an older descriptor out of the slot. -/
def poll_store_next_frame (s : RenderWindow) (f : FrameInfo) : RenderWindow :=
  { s with next_frame_to_render := AtomicOptionBox.store s.next_frame_to_render f }

/-- One render pass over the relay state of one window: extraction, then
the post-render send phase when it consumes the carried frame this pass
(send_ran), then the end-of-pass reconciliation in the Last schedule. -/
def run_pass (send_ran : Bool) (s : RenderWindow) : RenderWindow :=
  let s1 := extract_windows s
  let s2 := if send_ran then send_frame_to_windows s1 else s1
  put_back_next_frame_if_not_sent s2

/-- C1: a descriptor taken from slot A during extraction but not consumed
by the post-render send phase of that pass is stored back into slot A by
the end-of-pass reconciliation, so it is present in slot A at the start of
the next pass; and when the send phase finds no frame in transit the
reconciliation stores nothing (in particular an empty slot A with nothing
carried stays empty: no frame is fabricated). -/
theorem put_back_restores_unsent_frame :
    (∀ (s : RenderWindow) (f : FrameInfo),
      s.next_frame_to_render = some f →
      (run_pass false s).next_frame_to_render = some f) ∧
    (∀ t : RenderWindow, t.next_frame_to_send = none →
      put_back_next_frame_if_not_sent (send_frame_to_windows t) = t) ∧
    (∀ (send_ran : Bool) (s : RenderWindow),
      s.next_frame_to_render = none → s.next_frame_to_send = none →
      (run_pass send_ran s).next_frame_to_render = none) := by
  refine ⟨?_, ?_, ?_⟩
  · intro s f h
    simp [run_pass, extract_windows, AtomicOptionBox.take, h,
      put_back_next_frame_if_not_sent, AtomicOptionBox.store]
  · intro t h
    simp [send_frame_to_windows, h, put_back_next_frame_if_not_sent]
  · intro send_ran s hA hs
    cases send_ran <;>
      simp [run_pass, extract_windows, AtomicOptionBox.take, hA, hs,
        send_frame_to_windows, put_back_next_frame_if_not_sent]

/-- Witness for put_back_restores_unsent_frame: a concrete descriptor in
slot A survives a pass whose send phase does not consume it, and a pass
over a fully empty relay state fabricates nothing. -/
theorem put_back_restores_unsent_frame_witness :
    (run_pass false
        { shared_next_frame := none,
          next_frame_to_render := some ⟨⟨(640, 480), 3⟩, 0⟩,
          next_frame_to_send := none }).next_frame_to_render =
      some ⟨⟨(640, 480), 3⟩, 0⟩ ∧
    (run_pass true
        { shared_next_frame := none, next_frame_to_render := none,
          next_frame_to_send := none }).next_frame_to_render = none :=
  ⟨put_back_restores_unsent_frame.1 _ ⟨⟨(640, 480), 3⟩, 0⟩ rfl,
   put_back_restores_unsent_frame.2.2 true _ rfl rfl⟩

/-- C8: the end-of-pass reconciliation stores the carried descriptor into
slot A unconditionally: when the main-world poll has placed a newer
descriptor into slot A during the same pass, the put-back replaces it with
the stale carried one, and the newer descriptor is no longer in the slot
whenever the two differ. -/
theorem put_back_overwrites_newer_frame (s : RenderWindow)
    (stale newer : FrameInfo) (h : s.next_frame_to_send = some stale) :
    (put_back_next_frame_if_not_sent
        (poll_store_next_frame s newer)).next_frame_to_render = some stale ∧
    (stale ≠ newer →
      (put_back_next_frame_if_not_sent
          (poll_store_next_frame s newer)).next_frame_to_render ≠
        some newer) := by
  constructor
  · simp [put_back_next_frame_if_not_sent, poll_store_next_frame, h,
      AtomicOptionBox.store]
  · intro hne
    simp [put_back_next_frame_if_not_sent, poll_store_next_frame, h,
      AtomicOptionBox.store]
    exact hne

/-- Witness for put_back_overwrites_newer_frame at concrete distinct
descriptors. -/
theorem put_back_overwrites_newer_frame_witness :
    (put_back_next_frame_if_not_sent
        (poll_store_next_frame
          { shared_next_frame := none, next_frame_to_render := none,
            next_frame_to_send := some ⟨⟨(640, 480), 3⟩, 0⟩ }
          ⟨⟨(800, 600), 4⟩, 1⟩)).next_frame_to_render =
      some ⟨⟨(640, 480), 3⟩, 0⟩ :=
  (put_back_overwrites_newer_frame _ ⟨⟨(640, 480), 3⟩, 0⟩ ⟨⟨(800, 600), 4⟩, 1⟩
    rfl).1

/-- The handle-sampling loop of AdwaitaWindow::open (src/lib.rs lines
180-185): repeatedly draw a random ManualTextureViewHandle until one is
found that is not a key of the ManualTextureViews resource. stream i
models the i-th value returned by rand random, fuel bounds the unrolling
of the unbounded Rust loop (none models a run that has not terminated
within fuel draws). -/
def pick_handle (stream : Nat → Nat) (manual_texture_views : ManualTextureViews) :
    Nat → Nat → Option Nat
  | 0, _ => none
  | fuel + 1, i =>
    let handle := stream i
    if ManualTextureViews.contains_key manual_texture_views handle then
      pick_handle stream manual_texture_views fuel (i + 1)
    else
      some handle

/-- The effect of AdwaitaWindow::open (src/lib.rs lines 156-204) on handle
choice and on the ManualTextureViews resource: the chosen handle is
sampled by pick_handle against the current views, and open itself inserts
nothing into ManualTextureViews (registration of the handle only happens
later, in poll_windows, at the first export of the window). -/
def open_window (stream : Nat → Nat) (fuel i : Nat)
    (views : ManualTextureViews) : Option Nat × ManualTextureViews :=
  (pick_handle stream views fuel i, views)

/-- C4 counterexample: two windows opened before either is registered in
ManualTextureViews can receive the same render_target_handle when the
random draws repeat — here both opens, run against an empty resource with
the draw stream constantly 7, choose handle 7. -/
theorem open_handle_collision :
    (open_window (fun _ => 7) 1 0 []).1 = some 7 ∧
    (open_window (fun _ => 7) 1 0 (open_window (fun _ => 7) 1 0 []).2).1 =
      some 7 ∧
    (open_window (fun _ => 7) 1 0 []).1 =
      (open_window (fun _ => 7) 1 0 (open_window (fun _ => 7) 1 0 []).2).1 :=
  ⟨rfl, rfl, rfl⟩

/-- C4 amended: every handle chosen by the sampling loop of open is unused
among the views registered in ManualTextureViews at open time, and two
opens yield distinct handles whenever the handle of the first window has
been registered (by its first export) before the second open; open itself
registers nothing, so distinctness between two not-yet-registered windows
is not guaranteed. -/
theorem open_handle_unused_among_registered :
    (∀ (stream : Nat → Nat) (views : ManualTextureViews) (fuel i h : Nat),
      pick_handle stream views fuel i = some h →
      ManualTextureViews.contains_key views h = false) ∧
    (∀ (stream : Nat → Nat) (views : ManualTextureViews) (fuel i h1 h2 : Nat),
      ManualTextureViews.contains_key views h1 = true →
      pick_handle stream views fuel i = some h2 →
      h1 ≠ h2) := by
  have fresh : ∀ (stream : Nat → Nat) (views : ManualTextureViews)
      (fuel i h : Nat), pick_handle stream views fuel i = some h →
      ManualTextureViews.contains_key views h = false := by
    intro stream views fuel
    induction fuel with
    | zero => intro i h hp; exact absurd hp (by simp [pick_handle])
    | succ fuel ih =>
      intro i h hp
      by_cases hmem : ManualTextureViews.contains_key views (stream i) = true
      · exact ih (i + 1) h (by simpa [pick_handle, hmem] using hp)
      · have : stream i = h := by
          simpa [pick_handle, hmem] using hp
        rw [← this]
        exact Bool.not_eq_true _ |>.mp hmem
  refine ⟨fresh, fun stream views fuel i h1 h2 hreg hp heq => ?_⟩
  rw [heq] at hreg
  rw [fresh stream views fuel i h2 hp] at hreg
  exact Bool.false_ne_true hreg

/-- Witness for open_handle_unused_among_registered: with handle 7
registered, a draw of 5 is accepted as unused and is distinct from 7. -/
theorem open_handle_unused_among_registered_witness :
    ManualTextureViews.contains_key [(7, (640, 480))] 5 = false ∧
    (7 : Nat) ≠ 5 :=
  ⟨open_handle_unused_among_registered.1 (fun _ => 5) [(7, (640, 480))] 1 0 5
    rfl,
   open_handle_unused_among_registered.2 (fun _ => 5) [(7, (640, 480))] 1 0 7 5
    rfl rfl⟩

/-- The gdk dmabuf texture description built by build_dmabuf_texture,
field for field: size, fourcc, tiling modifier, plane count, and the
fd / offset / stride of plane 0. -/
structure DmabufTexture where
  width : Nat
  height : Nat
  fourcc : Nat
  modifier : Nat
  n_planes : Nat
  plane0_fd : Int
  plane0_offset : Nat
  plane0_stride : Nat
deriving DecidableEq, Repr

/-- build_dmabuf_texture (src/render.rs lines 245-264): builds the
compositor-side surface description for an exported frame — fourcc
0x34324152 (RA24, RGBA8888 little-endian, matching the Rgba8UnormSrgb
format chosen by the exporter), modifier 0, one plane at offset 0 whose
stride is width * 4 bytes (u32 arithmetic). -/
def build_dmabuf_texture (size : Nat × Nat) (fd : Int) : DmabufTexture :=
  { width := size.1
    height := size.2
    fourcc := 0x34324152
    modifier := 0
    n_planes := 1
    plane0_fd := fd
    plane0_offset := 0
    plane0_stride := u32_mul size.1 4 }

/-- C7: for every size and exported file descriptor, build_dmabuf_texture
declares exactly one memory plane with offset 0 and stride width * 4
bytes, modifier 0, and the fixed 32-bit RGBA little-endian fourcc
0x34324152, carrying the given fd and dimensions through unchanged. -/
theorem build_dmabuf_texture_plane_layout (size : Nat × Nat) (fd : Int)
    (hfit : size.1 * 4 < 2 ^ 32) :
    (build_dmabuf_texture size fd).n_planes = 1 ∧
    (build_dmabuf_texture size fd).plane0_offset = 0 ∧
    (build_dmabuf_texture size fd).plane0_stride = size.1 * 4 ∧
    (build_dmabuf_texture size fd).modifier = 0 ∧
    (build_dmabuf_texture size fd).fourcc = 0x34324152 ∧
    (build_dmabuf_texture size fd).plane0_fd = fd ∧
    (build_dmabuf_texture size fd).width = size.1 ∧
    (build_dmabuf_texture size fd).height = size.2 :=
  ⟨rfl, rfl, Nat.mod_eq_of_lt hfit, rfl, rfl, rfl, rfl, rfl⟩

/-- Witness for build_dmabuf_texture_plane_layout at 640 x 480 with fd 3. -/
theorem build_dmabuf_texture_plane_layout_witness :
    (build_dmabuf_texture (640, 480) 3).plane0_stride = 640 * 4 :=
  (build_dmabuf_texture_plane_layout (640, 480) 3 (by decide)).2.2.1

end BevyModAdwaita
